import Mathlib

/-!
Shallow embedding of the `quartz-community/og-image` plugin (source file
`src/unnamed/part_000` plus `src/src/theme.ts`).

The plugin has four parts relevant to the claims:
  - a disk-backed font cache (`fetchTtf`) and the font-collection builder
    (`getSatoriFonts`), modelled with an explicit `Network` (deterministic
    responses) and a `FetchState` (cache contents, fetched URLs, warnings);
  - the per-page emission pipeline (`processOgImage` / `write`): effective
    title and description selection and the output path;
  - the two emitter entry points (`emit`, `partialEmit`), modelled as the
    list of file paths they write;
  - the meta-tag injector (`externalResources`), modelled as the head
    output (`og:image` URL and whether width/height tags are emitted).

JavaScript `undefined` is modelled with `Option`; JS string truthiness
(`""` is falsy) is `jsTruthyStr`; the nullish-coalescing operator `??` is
`Option.getD` / explicit matches (it keeps `""`, unlike truthiness).
-/

namespace OgImage

/-- Frontmatter fields read by the plugin (type `Frontmatter` in the source). -/
structure Frontmatter where
  title : Option String
  description : Option String
  socialDescription : Option String
  socialImage : Option String
  tags : Option (List String)
deriving DecidableEq, Repr

/-- Per-page data read by the plugin (type `QuartzPluginData` in the source;
the `dates` map is not needed by any claim and is omitted). -/
structure QuartzPluginData where
  slug : Option String
  frontmatter : Option Frontmatter
  description : Option String
  text : Option String
  filePath : Option String
deriving DecidableEq, Repr

/-- The site-configuration fields the embedded functions read
(`GlobalConfiguration` from `@quartz-community/types`; only the fields the
claims exercise are modelled: `baseUrl` and `pageTitleSuffix`). -/
structure GlobalConfiguration where
  baseUrl : Option String
  pageTitleSuffix : Option String
deriving DecidableEq, Repr

/-- The generation options (`SocialImageOptions`); the function-valued
fields (`readingTimeText`, `imageStructure`) and `colorScheme` feed only the
visual template, which no claim concerns, and are omitted. -/
structure SocialImageOptions where
  width : Nat
  height : Nat
  excludeRoot : Bool
  defaultTitle : Option String
  defaultDescription : Option String
deriving DecidableEq, Repr

/-- The source's `defaultOptions` value. -/
def defaultOptions : SocialImageOptions :=
  { width := 1200, height := 630, excludeRoot := false,
    defaultTitle := some "Untitled",
    defaultDescription := some "No description provided" }

/-- JavaScript truthiness of a `string | undefined` value: `undefined` and
the empty string are falsy, every other string is truthy. -/
def jsTruthyStr : Option String → Bool
  | some s => s != ""
  | none => false

/-- JavaScript string interpolation of a `string | undefined` value after a
non-null assertion (`fileData.slug!` interpolated into a template literal):
an actually-undefined value prints as the string `undefined`. -/
def slugBang : Option String → String
  | some s => s
  | none => "undefined"

/-- Boolean prefix test on character lists (structural, kernel-evaluable). -/
def startsWithChars : List Char → List Char → Bool
  | [], _ => true
  | _ :: _, [] => false
  | a :: as, b :: bs => a == b && startsWithChars as bs

/-- The source's `isAbsoluteURL`: the regex test `^https?:\/\/`, i.e. the
URL begins with `http://` or `https://`. -/
def isAbsoluteURL (url : String) : Bool :=
  startsWithChars "http://".data url.data || startsWithChars "https://".data url.data

/-! ## Font resolver / cache (`fetchTtf`, `getSatoriFonts`) -/

/-- The deterministic network seen by one build: for each URL, the body text
of the stylesheet response, its status text, and the bytes of a binary-asset
response. (`fetch` responses that resolve; a rejected promise would
propagate out of `fetchTtf`, which has no handler for it, and is outside
this model.) -/
structure Network where
  css : String → String
  statusText : String → String
  bytes : String → List Nat

/-- The mutable state `fetchTtf` touches: the on-disk font cache (an
association list keyed by cache path), the URLs fetched so far (in order),
and the warnings printed so far. -/
structure FetchState where
  cache : List (String × List Nat)
  fetched : List String
  warnings : List String
deriving DecidableEq, Repr

/-- The source's `rawFontName.replaceAll(" ", "+")` (the pattern is a single
character, so this is a per-character map). -/
def plusChars : List Char → List Char
  | ' ' :: rest => '+' :: plusChars rest
  | c :: rest => c :: plusChars rest
  | [] => []

/-- URL-safe font name: spaces replaced by `+`. -/
def fontKeyName (raw : String) : String := String.mk (plusChars raw.data)

/-- The cache key `` `${fontName}-${weight}` ``. -/
def cacheKeyOf (raw : String) (weight : Nat) : String :=
  fontKeyName raw ++ "-" ++ toString weight

/-- The cache file path `path.join("quartz", ".quartz-cache", "fonts", cacheKey)`. -/
def cachePathOf (raw : String) (weight : Nat) : String :=
  "quartz/.quartz-cache/fonts/" ++ cacheKeyOf raw weight

/-- The stylesheet URL `` `https://fonts.googleapis.com/css2?family=${fontName}:wght@${weight}` ``. -/
def cssUrlOf (raw : String) (weight : Nat) : String :=
  "https://fonts.googleapis.com/css2?family=" ++ fontKeyName raw ++ ":wght@" ++ toString weight

/-- The warning message logged when the stylesheet yields no font URL
(`` `Warning: Failed to fetch font ${rawFontName} with weight ${weight}, got ${cssResponse.statusText}` ``). -/
def fontWarning (raw : String) (weight : Nat) (statusText : String) : String :=
  "Warning: Failed to fetch font " ++ raw ++ " with weight " ++ toString weight ++
    ", got " ++ statusText

/-- Lazy tail of the regex `url\((https:\/\/fonts.gstatic.com\/s\/.*?.ttf)\)`:
after the prefix, consume the shortest run of characters followed by one
character, `ttf`, and a closing parenthesis; return the captured characters. -/
def grabTtfBody (acc : List Char) : List Char → Option (List Char)
  | c :: 't' :: 't' :: 'f' :: ')' :: _ => some (acc.reverse ++ [c, 't', 't', 'f'])
  | c :: rest => grabTtfBody (c :: acc) rest
  | [] => none

/-- The characters `url(https://fonts.gstatic.com/s/` that must precede the
captured group (the two regex dots are taken literally). -/
def ttfUrlOpener : List Char := "url(https://fonts.gstatic.com/s/".data

/-- Leftmost-match scan of the stylesheet body for the font-asset URL. -/
def scanForTtfUrl : List Char → Option (List Char)
  | [] => none
  | c :: rest =>
    if startsWithChars ttfUrlOpener (c :: rest) then
      match grabTtfBody [] ((c :: rest).drop ttfUrlOpener.length) with
      | some body => some ("https://fonts.gstatic.com/s/".data ++ body)
      | none => scanForTtfUrl rest
    else scanForTtfUrl rest

/-- First match of `urlRegex.exec(css)`: the captured font-asset URL, if any. -/
def extractFontUrl (css : String) : Option String :=
  (scanForTtfUrl css.data).map String.mk

/-- The source's `fetchTtf(rawFontName, weight)`: serve from the on-disk
cache when the entry exists; otherwise fetch the stylesheet, extract the
first font-asset URL, and on success fetch it, write the cache entry and
return the bytes; when no URL is found, log a warning and return `undefined`
(caching nothing). Returns the result together with the updated state. -/
def fetchTtf (net : Network) (st : FetchState) (rawFontName : String) (weight : Nat) :
    Option (List Nat) × FetchState :=
  let cachePath := cachePathOf rawFontName weight
  match List.lookup cachePath st.cache with
  | some data => (some data, st)
  | none =>
    let cssUrl := cssUrlOf rawFontName weight
    let css := net.css cssUrl
    let st1 : FetchState := { st with fetched := st.fetched ++ [cssUrl] }
    match extractFontUrl css with
    | none =>
      (none, { st1 with
        warnings := st1.warnings ++ [fontWarning rawFontName weight (net.statusText cssUrl)] })
    | some fontUrl =>
      if fontUrl = "" then (none, st1)
      else
        let fontData := net.bytes fontUrl
        (some fontData, { st1 with
          fetched := st1.fetched ++ [fontUrl],
          cache := (cachePath, fontData) :: st1.cache })

/-- A font specification from the theme (`theme.ts`): a bare family name or
a record with name, optional weights and an italic flag. -/
inductive FontSpecification where
  | str : String → FontSpecification
  | obj : String → Option (List Nat) → Option Bool → FontSpecification
deriving DecidableEq, Repr

/-- One resolved satori font entry (`{ name, data, weight, style: "normal" }`). -/
structure SatoriFont where
  name : String
  data : List Nat
  weight : Nat
  style : String
deriving DecidableEq, Repr

/-- Header weights: `typeof headerFont === "string" ? [700] : headerFont.weights ?? [700]`. -/
def headerWeightsOf : FontSpecification → List Nat
  | .str _ => [700]
  | .obj _ w _ => w.getD [700]

/-- Body weights: default `[400]`. -/
def bodyWeightsOf : FontSpecification → List Nat
  | .str _ => [400]
  | .obj _ w _ => w.getD [400]

/-- The family name of a font specification (`getFontSpecificationName`). -/
def fontNameOf : FontSpecification → String
  | .str n => n
  | .obj n _ _ => n

/-- One batch of weight resolutions for one family: each weight is fetched
via `fetchTtf`; a failed fetch contributes `none` (the source's `null`). -/
def resolveWeights (net : Network) (st : FetchState) (name : String) :
    List Nat → List (Option SatoriFont) × FetchState
  | [] => ([], st)
  | w :: ws =>
    let p := fetchTtf net st name w
    let font := p.1.map (fun d => SatoriFont.mk name d w "normal")
    let rest := resolveWeights net p.2 name ws
    (font :: rest.1, rest.2)

/-- The source's `getSatoriFonts(headerFont, bodyFont)`: resolve all header
weights, then all body weights, and keep only the non-null entries (header
entries first), so fonts that failed to resolve are excluded rather than
null-padded. -/
def getSatoriFonts (net : Network) (st : FetchState)
    (headerFont bodyFont : FontSpecification) : List SatoriFont × FetchState :=
  let hp := resolveWeights net st (fontNameOf headerFont) (headerWeightsOf headerFont)
  let bp := resolveWeights net hp.2 (fontNameOf bodyFont) (bodyWeightsOf bodyFont)
  (hp.1.filterMap id ++ bp.1.filterMap id, bp.2)

/-! ## Emission pipeline (`processOgImage`, `write`, `emit`, `partialEmit`) -/

/-- Modelled from the spec: `unescapeHTML` is imported from
`@quartz-community/utils`, whose code is not part of this repository; the
spec describes it only as "HTML-unescaped". It is modelled as the standard
five-entity decoder (left-to-right single pass). Theorems that do not need a
concrete decoder quantify over the unescaping function instead. -/
def unescapeChars : List Char → List Char
  | '&' :: 'a' :: 'm' :: 'p' :: ';' :: rest => '&' :: unescapeChars rest
  | '&' :: 'l' :: 't' :: ';' :: rest => '<' :: unescapeChars rest
  | '&' :: 'g' :: 't' :: ';' :: rest => '>' :: unescapeChars rest
  | '&' :: 'q' :: 'u' :: 'o' :: 't' :: ';' :: rest => '"' :: unescapeChars rest
  | '&' :: '#' :: '3' :: '9' :: ';' :: rest => '\'' :: unescapeChars rest
  | c :: rest => c :: unescapeChars rest
  | [] => []

/-- Modelled from the spec: the string form of the HTML-unescaping helper
(see `unescapeChars`). -/
def unescapeHTML (s : String) : String := String.mk (unescapeChars s.data)

/-- Modelled from the spec: `joinSegments` is imported from
`@quartz-community/types`, whose code is not part of this repository; the
spec fixes the written location as `<output_root>/<slug>-og-image.webp`,
i.e. a slash join of the two segments. -/
def joinSegments (a b : String) : String := a ++ "/" ++ b

/-- Effective title: `(frontmatter?.title ?? fullOptions.defaultTitle ?? "") + titleSuffix`
with `titleSuffix = cfg.pageTitleSuffix ?? ""` (from `processOgImage`). -/
def effectiveTitle (cfg : GlobalConfiguration) (opts : SocialImageOptions)
    (d : QuartzPluginData) : String :=
  ((d.frontmatter.bind (fun f => f.title)).getD (opts.defaultTitle.getD "")) ++
    (cfg.pageTitleSuffix.getD "")

/-- Effective description (from `processOgImage`):
`frontmatter?.socialDescription ?? frontmatter?.description ??
unescapeHTML(fileData.description?.trim() ?? fullOptions.defaultDescription ?? "")`.
The unescaping function `u` is a parameter (it lives outside this repository). -/
def effectiveDescription (opts : SocialImageOptions) (u : String → String)
    (d : QuartzPluginData) : String :=
  match d.frontmatter.bind (fun f => f.socialDescription) with
  | some s => s
  | none =>
    match d.frontmatter.bind (fun f => f.description) with
    | some s => s
    | none =>
      u (((d.description.map (fun s => s.trim)).getD (opts.defaultDescription.getD "")))

/-- The path `processOgImage` hands to `write`: `joinSegments(output, slug + "-og-image" + ".webp")`
(the `write` helper appends `args.slug + args.ext` to the output root). -/
def ogWritePath (output : String) (d : QuartzPluginData) : String :=
  joinSegments output (slugBang d.slug ++ "-og-image" ++ ".webp")

/-- What `processOgImage` feeds the layout and where it writes: the
rasterizer (satori + sharp) is an external opaque service, so the emission
is modelled by its inputs (title, description) and the written path. -/
structure OgEmission where
  title : String
  description : String
  path : String
deriving DecidableEq, Repr

/-- The source's `processOgImage`, restricted to the data the claims
concern: the chosen title, description and output path. -/
def processOgImage (cfg : GlobalConfiguration) (opts : SocialImageOptions)
    (u : String → String) (output : String) (d : QuartzPluginData) : OgEmission :=
  { title := effectiveTitle cfg opts d,
    description := effectiveDescription opts u d,
    path := ogWritePath output d }

/-- The skip test of both emitters: `data.frontmatter?.socialImage !== undefined`
(a definedness test: the empty string is defined). -/
def hasCustomSocialImage (d : QuartzPluginData) : Bool :=
  match d.frontmatter with
  | some fm => fm.socialImage.isSome
  | none => false

/-- The full-build emitter `emit`, modelled as the list of file paths it
writes: each page either takes the SKIP path (`continue`) or yields one
`processOgImage` write. The function is total — the skip path raises
nothing. -/
def emitPaths (output : String) (content : List QuartzPluginData) : List String :=
  content.filterMap (fun d =>
    if hasCustomSocialImage d then none else some (ogWritePath output d))

/-- The `type` of a change event (`add | change | delete`). -/
inductive ChangeType where
  | add
  | change
  | delete
deriving DecidableEq, Repr

/-- One change event handed to `partialEmit` (`{type, file}`; `file` may be
absent, which the source skips with `if (!changeEvent.file) continue`). -/
structure ChangeEvent where
  type : ChangeType
  file : Option QuartzPluginData
deriving DecidableEq, Repr

/-- The incremental emitter `partialEmit`, modelled as the list of file
paths it writes: events without a file are skipped, pages with a declared
`socialImage` take the SKIP path, and only `add`/`change` events emit. -/
def partialEmitPaths (output : String) (events : List ChangeEvent) : List String :=
  events.filterMap (fun e =>
    match e.file with
    | none => none
    | some d =>
      if hasCustomSocialImage d then none
      else
        match e.type with
        | .add => some (ogWritePath output d)
        | .change => some (ogWritePath output d)
        | .delete => none)

/-! ## Meta-tag injector (`externalResources`) -/

/-- The page's user-supplied image reference: `pageData.frontmatter?.socialImage`. -/
def userImageOf (d : QuartzPluginData) : Option String :=
  d.frontmatter.bind (fun f => f.socialImage)

/-- The guard `if (userDefinedOgImagePath) { ... }` of `externalResources`:
when the reference is truthy, replace it with itself if already absolute and
with `` `https://${baseUrl}/static/${userDefinedOgImagePath}` `` otherwise;
a falsy value (absent or empty) is left untouched. -/
def resolveUserImage (baseUrl : String) (u : Option String) : Option String :=
  if jsTruthyStr u then
    u.map (fun s => if isAbsoluteURL s then s else "https://" ++ baseUrl ++ "/static/" ++ s)
  else u

/-- The head output of the injector for one page, restricted to the data
the claims concern: whether the `og:image:width`/`og:image:height` tags are
emitted, and the image URL carried by `og:image`, `og:image:url` and
`twitter:image` (all three carry the same string). -/
structure HeadOutput where
  widthHeight : Bool
  ogImage : String
deriving DecidableEq, Repr

/-- The per-page head function installed by `externalResources` (only
reached when `cfg.baseUrl` is configured; `baseUrl` here is that value):
width/height tags iff the post-guard user path is falsy, and the URL
`userDefinedOgImagePath ?? generatedOgImagePath ?? defaultOgImagePath`,
where the generated path exists only for pages with a `filePath`. -/
def pageHead (baseUrl : String) (d : QuartzPluginData) : HeadOutput :=
  let isRealFile := d.filePath.isSome
  let userDefined := resolveUserImage baseUrl (userImageOf d)
  let generated :=
    if isRealFile then some ("https://" ++ baseUrl ++ "/" ++ slugBang d.slug ++ "-og-image.webp")
    else none
  let dflt := "https://" ++ baseUrl ++ "/static/og-image.png"
  { widthHeight := !jsTruthyStr userDefined,
    ogImage := userDefined.getD (generated.getD dflt) }

/-- The injector itself: `externalResources` returns nothing at all when no
base URL is configured, and otherwise installs `pageHead`. -/
def externalResourcesHead (cfgBaseUrl : Option String) (d : QuartzPluginData) :
    Option HeadOutput :=
  cfgBaseUrl.map (fun b => pageHead b d)

/-! ## Claim-side definitions

For refinement-style comparisons, the following definitions follow the
claims' words rather than the source; each is compared with the embedded
source function above. -/

/-- Statement of claim C2 rendered as a function: the OG image URL is the
user-supplied reference resolved to absolute (prefixing `https://<base>/static/`
unless already absolute) when one is present; otherwise the generated path
when the page has a file path; otherwise the site default. -/
def ogImagePathClaimed (baseUrl : String) (d : QuartzPluginData) : String :=
  match userImageOf d with
  | some s => if isAbsoluteURL s then s else "https://" ++ baseUrl ++ "/static/" ++ s
  | none =>
    if d.filePath.isSome then "https://" ++ baseUrl ++ "/" ++ slugBang d.slug ++ "-og-image.webp"
    else "https://" ++ baseUrl ++ "/static/og-image.png"

/-- Amended claim C2 rendered as a function: as claimed, except that a
present-but-empty reference is selected as-is — the absolutization guard is
a truthiness test, while the final `??` choice is a definedness test, so the
empty string itself becomes the OG image URL. -/
def ogImagePathAmended (baseUrl : String) (d : QuartzPluginData) : String :=
  match userImageOf d with
  | some s =>
    if s = "" then ""
    else if isAbsoluteURL s then s
    else "https://" ++ baseUrl ++ "/static/" ++ s
  | none =>
    if d.filePath.isSome then "https://" ++ baseUrl ++ "/" ++ slugBang d.slug ++ "-og-image.webp"
    else "https://" ++ baseUrl ++ "/static/og-image.png"

/-- Statement of claim C5 rendered as a function: social-description
override, else description override, else the trimmed HTML-unescaped
excerpt, else the configured default description (taken verbatim). -/
def effectiveDescriptionClaimed (opts : SocialImageOptions) (u : String → String)
    (d : QuartzPluginData) : String :=
  match d.frontmatter.bind (fun f => f.socialDescription) with
  | some s => s
  | none =>
    match d.frontmatter.bind (fun f => f.description) with
    | some s => s
    | none =>
      match d.description with
      | some e => u e.trim
      | none => opts.defaultDescription.getD ""

/-- Amended claim C5 rendered as a function: as claimed, except that the
default-description fallback is also passed through the HTML-unescaper
(the source wraps the whole excerpt-or-default expression in `unescapeHTML`). -/
def effectiveDescriptionAmended (opts : SocialImageOptions) (u : String → String)
    (d : QuartzPluginData) : String :=
  match d.frontmatter.bind (fun f => f.socialDescription) with
  | some s => s
  | none =>
    match d.frontmatter.bind (fun f => f.description) with
    | some s => s
    | none =>
      match d.description with
      | some e => u e.trim
      | none => u (opts.defaultDescription.getD "")

/-! ## Concrete data used by counterexamples and witnesses -/

/-- Frontmatter that declares `socialImage: ""` (present but empty). -/
def fmEmptyImage : Frontmatter := ⟨none, none, none, some "", none⟩

/-- A real-file page whose frontmatter declares an empty `socialImage`. -/
def pageEmptyImage : QuartzPluginData :=
  ⟨some "posts/a", some fmEmptyImage, none, none, some "content/a.md"⟩

/-- A network whose stylesheet responses are empty (so no font URL ever
matches), with status text `Not Found`. -/
def emptyNet : Network := ⟨fun _ => "", fun _ => "Not Found", fun _ => []⟩

/-- A network whose stylesheet responses embed one font-asset URL and whose
binary responses are the bytes `[7, 7, 7]`. -/
def goodNet : Network :=
  ⟨fun _ => "src: url(https://fonts.gstatic.com/s/inter/v12/abc.ttf) format(truetype)",
   fun _ => "OK", fun _ => [7, 7, 7]⟩

/-- The state at the start of a build with an empty font cache. -/
def st0 : FetchState := ⟨[], [], []⟩

/-- Options whose default description contains an HTML entity. -/
def ampOptions : SocialImageOptions :=
  { defaultOptions with defaultDescription := some "Tom &amp; Jerry" }

/-- A page with no frontmatter and no rendered excerpt. -/
def barePage : QuartzPluginData := ⟨some "a", none, none, none, some "f"⟩

/-- A page with slug `a/b` and no frontmatter. -/
def pageA : QuartzPluginData := ⟨some "a/b", none, some "X", none, some "f"⟩

/-- A different page (different frontmatter, text and file path) with the
same slug `a/b`. -/
def pageB : QuartzPluginData :=
  ⟨some "a/b", some ⟨some "T", none, none, none, none⟩, none, some "body", some "g"⟩

/-- A page whose frontmatter supplies a protocol-relative image reference. -/
def pageProtoRel : QuartzPluginData :=
  ⟨some "a", some ⟨none, none, none, some "//cdn.example.com/pic.png", none⟩, none, none, some "f"⟩

/-- A configuration with a page-title suffix. -/
def cfgSuffix : GlobalConfiguration := ⟨some "example.com", some " | Blog"⟩

/-! ## Helper lemmas -/

/-- Appending character lists is what string append does to the data. -/
lemma str_data_append (s t : String) : (s ++ t).data = s.data ++ t.data := by
  cases s; cases t; rfl

/-- A string of the shape `https://<base>/static/<s>` is never empty. -/
lemma prefixed_static_ne_empty (b s : String) :
    "https://" ++ b ++ "/static/" ++ s ≠ "" := by
  intro h
  have hl : ("https://" ++ b ++ "/static/" ++ s).data = ("" : String).data := by rw [h]
  rw [str_data_append, str_data_append, str_data_append] at hl
  simp at hl

/-- Character-list prefix test, characterized by list append. -/
lemma startsWithChars_iff (p l : List Char) :
    startsWithChars p l = true ↔ ∃ t, l = p ++ t := by
  induction p generalizing l with
  | nil => simp [startsWithChars]
  | cons a as ih =>
    cases l with
    | nil =>
      simp only [startsWithChars, List.cons_append]
      constructor
      · intro h; cases h
      · rintro ⟨t, ht⟩; cases ht
    | cons b bs =>
      simp only [startsWithChars, Bool.and_eq_true, beq_iff_eq, ih, List.cons_append]
      constructor
      · rintro ⟨rfl, t, rfl⟩; exact ⟨t, rfl⟩
      · rintro ⟨t, ht⟩
        injection ht with h1 h2
        exact ⟨h1.symm, t, h2⟩

/-- String-level reading of the character prefix test. -/
lemma startsWithChars_string_iff (p url : String) :
    startsWithChars p.data url.data = true ↔ ∃ t, url = p ++ t := by
  rw [startsWithChars_iff]
  constructor
  · rintro ⟨t, ht⟩
    cases url with
    | mk l =>
      cases p with
      | mk q =>
        refine ⟨String.mk t, ?_⟩
        have h2 : l = q ++ t := ht
        subst h2
        rfl
  · rintro ⟨t, rfl⟩
    exact ⟨t.data, by rw [str_data_append]⟩

/-- Every font entry produced by one family's weight batch carries that
family's name. -/
lemma resolveWeights_names (net : Network) (st : FetchState) (n : String)
    (ws : List Nat) :
    (((resolveWeights net st n ws).1).filterMap id).all (fun f => f.name == n) = true := by
  induction ws generalizing st with
  | nil => rfl
  | cons w ws ih =>
    simp only [resolveWeights]
    cases hf : (fetchTtf net st n w).1 with
    | none => simpa using ih (fetchTtf net st n w).2
    | some d =>
      simp only [Option.map_some', List.filterMap_cons, id, List.all_cons, Bool.and_eq_true,
        beq_self_eq_true, true_and]
      exact ih (fetchTtf net st n w).2

/-! ## Claims -/

/-- C1. For every page whose frontmatter declares a custom social image,
both the full-build emitter and the incremental emitter take the SKIP path:
the written-file list is unchanged when all such pages are removed from the
input, so no generated image file is written for any of them (and the
emitters, being total functions here, raise nothing on the skip path). -/
theorem c1_custom_image_skip (output : String) (content : List QuartzPluginData)
    (events : List ChangeEvent) :
    emitPaths output content =
      emitPaths output (content.filter (fun d => !hasCustomSocialImage d))
    ∧ partialEmitPaths output events =
      partialEmitPaths output (events.filter (fun e =>
        match e.file with
        | some d => !hasCustomSocialImage d
        | none => true)) := by
  constructor
  · induction content with
    | nil => rfl
    | cons d rest ih =>
      by_cases h : hasCustomSocialImage d
      · simpa [emitPaths, List.filter_cons, List.filterMap_cons, h] using ih
      · simpa [emitPaths, List.filter_cons, List.filterMap_cons, h] using ih
  · induction events with
    | nil => rfl
    | cons e rest ih =>
      obtain ⟨t, f⟩ := e
      cases f with
      | none => simpa [partialEmitPaths, List.filter_cons, List.filterMap_cons] using ih
      | some d =>
        by_cases h : hasCustomSocialImage d
        · simpa [partialEmitPaths, List.filter_cons, List.filterMap_cons, h] using ih
        · cases t <;>
            simpa [partialEmitPaths, List.filter_cons, List.filterMap_cons, h] using ih

/-- C2, counterexample. A page whose frontmatter sets `socialImage: ""`
refutes the claimed priority: the injector's chosen URL is the empty string
itself — neither the resolved user reference (the claim's reading), nor the
generated path, nor the default. -/
theorem c2_empty_social_image_counterexample :
    (pageHead "example.com" pageEmptyImage).ogImage = ""
    ∧ ogImagePathClaimed "example.com" pageEmptyImage = "https://example.com/static/"
    ∧ (pageHead "example.com" pageEmptyImage).ogImage ≠
        ogImagePathClaimed "example.com" pageEmptyImage
    ∧ (pageHead "example.com" pageEmptyImage).ogImage ≠
        "https://example.com/posts/a-og-image.webp"
    ∧ (pageHead "example.com" pageEmptyImage).ogImage ≠
        "https://example.com/static/og-image.png" := by
  decide

/-- C2, amended. The injector's OG image URL follows the claimed priority
except on a present-but-empty user reference: a defined reference always
wins the `??` choice, but the absolutization guard is a truthiness test, so
an empty-string reference is selected as-is and the URL is empty. -/
theorem c2_og_image_priority_amended (b : String) (d : QuartzPluginData) :
    (pageHead b d).ogImage = ogImagePathAmended b d := by
  unfold pageHead ogImagePathAmended resolveUserImage
  cases hu : userImageOf d with
  | none => cases hf : d.filePath <;> simp [jsTruthyStr, hf]
  | some s =>
    by_cases hs : s = ""
    · subst hs; simp [jsTruthyStr]
    · by_cases ha : isAbsoluteURL s <;> simp [jsTruthyStr, hs, ha]

/-- C3, counterexample. A (family, weight) pair whose first resolution fails
(no font URL in the stylesheet) caches nothing, so the second resolution
performs a network fetch again — refuting the claim that the second of two
sequential resolutions never fetches. -/
theorem c3_failed_first_fetch_counterexample :
    (fetchTtf emptyNet st0 "Inter" 700).1 = none
    ∧ (fetchTtf emptyNet st0 "Inter" 700).2.fetched.length = 1
    ∧ (fetchTtf emptyNet (fetchTtf emptyNet st0 "Inter" 700).2 "Inter" 700).2.fetched.length = 2 := by
  decide

/-- C3, amended. For every (family, weight) pair whose first resolution
returns data, a second resolution in sequence performs no network fetch
(the fetched-URL log does not grow) and returns byte-identical data; a
failed first resolution is not cached and is retried. -/
theorem c3_cached_second_resolution (net : Network) (st : FetchState)
    (fam : String) (w : Nat)
    (h : ((fetchTtf net st fam w).1).isSome = true) :
    (fetchTtf net (fetchTtf net st fam w).2 fam w).1 = (fetchTtf net st fam w).1
    ∧ (fetchTtf net (fetchTtf net st fam w).2 fam w).2.fetched =
      (fetchTtf net st fam w).2.fetched := by
  cases hc : List.lookup (cachePathOf fam w) st.cache with
  | some data => simp [fetchTtf, hc]
  | none =>
    cases he : extractFontUrl (net.css (cssUrlOf fam w)) with
    | none => simp [fetchTtf, hc, he] at h
    | some u =>
      by_cases hu : u = ""
      · simp [fetchTtf, hc, he, hu] at h
      · simp [fetchTtf, hc, he, hu, List.lookup]

/-- C3, witness for the amended theorem: a network that serves the font for
`(Inter, 700)` satisfies the hypothesis, and the second resolution then
fetches nothing and returns the same bytes. -/
theorem c3_cached_second_resolution_witness :
    ((fetchTtf goodNet st0 "Inter" 700).1).isSome = true
    ∧ ((fetchTtf goodNet (fetchTtf goodNet st0 "Inter" 700).2 "Inter" 700).1 =
        (fetchTtf goodNet st0 "Inter" 700).1
      ∧ (fetchTtf goodNet (fetchTtf goodNet st0 "Inter" 700).2 "Inter" 700).2.fetched =
        (fetchTtf goodNet st0 "Inter" 700).2.fetched) :=
  ⟨by decide, c3_cached_second_resolution goodNet st0 "Inter" 700 (by decide)⟩

/-- C4. When a (family, weight) pair is not cached and its stylesheet
response contains no matching font-asset URL (as a non-OK response does),
resolution returns absence, logs exactly one warning, and writes no cache
entry; and the font-collection builder excludes the entry from the resolved
set — with a header font of that single family and weight, every resolved
font belongs to the body family (no null padding, no build failure). -/
theorem c4_missing_font_excluded (net : Network) (st : FetchState)
    (fam bn : String) (w : Nat)
    (h1 : List.lookup (cachePathOf fam w) st.cache = none)
    (h2 : extractFontUrl (net.css (cssUrlOf fam w)) = none) :
    (fetchTtf net st fam w).1 = none
    ∧ (fetchTtf net st fam w).2.warnings =
      st.warnings ++ [fontWarning fam w (net.statusText (cssUrlOf fam w))]
    ∧ (fetchTtf net st fam w).2.cache = st.cache
    ∧ ((getSatoriFonts net st (.obj fam (some [w]) none) (.str bn)).1).all
      (fun f => f.name == bn) = true := by
  refine ⟨by simp [fetchTtf, h1, h2], by simp [fetchTtf, h1, h2], by simp [fetchTtf, h1, h2], ?_⟩
  have hfail : (fetchTtf net st fam w).1 = none := by simp [fetchTtf, h1, h2]
  simp only [getSatoriFonts, headerWeightsOf, bodyWeightsOf, fontNameOf, Option.getD,
    resolveWeights, hfail, Option.map_none', List.filterMap_cons, List.filterMap_nil,
    List.nil_append, List.all_append, Bool.and_eq_true]
  exact ⟨rfl, resolveWeights_names net _ bn [400]⟩

/-- C4, witness: with an empty cache and a network whose stylesheet bodies
are empty, `(Inter, 700)` resolves to absence with one warning, and the
resolved set contains only body-family entries. -/
theorem c4_missing_font_excluded_witness :
    (List.lookup (cachePathOf "Inter" 700) st0.cache = none
      ∧ extractFontUrl (emptyNet.css (cssUrlOf "Inter" 700)) = none)
    ∧ ((fetchTtf emptyNet st0 "Inter" 700).1 = none
      ∧ (fetchTtf emptyNet st0 "Inter" 700).2.warnings =
        st0.warnings ++ [fontWarning "Inter" 700 (emptyNet.statusText (cssUrlOf "Inter" 700))]
      ∧ (fetchTtf emptyNet st0 "Inter" 700).2.cache = st0.cache
      ∧ ((getSatoriFonts emptyNet st0 (.obj "Inter" (some [700]) none) (.str "Roboto")).1).all
        (fun f => f.name == "Roboto") = true) :=
  ⟨⟨by decide, by decide⟩,
   c4_missing_font_excluded emptyNet st0 "Inter" "Roboto" 700 (by decide) (by decide)⟩

/-- C5, counterexample. When neither frontmatter override nor excerpt is
present, the source passes the configured default description through
`unescapeHTML` too, so a default containing an HTML entity comes out
decoded — not "the configured default description" as claimed. -/
theorem c5_default_unescaped_counterexample :
    effectiveDescription ampOptions unescapeHTML barePage = "Tom & Jerry"
    ∧ effectiveDescriptionClaimed ampOptions unescapeHTML barePage = "Tom &amp; Jerry"
    ∧ effectiveDescription ampOptions unescapeHTML barePage ≠
      effectiveDescriptionClaimed ampOptions unescapeHTML barePage := by
  decide

/-- C5, amended. The effective description follows the claimed priority
(social-description override, else description override, else the trimmed
unescaped excerpt, else the configured default) with one correction: the
default fallback is also HTML-unescaped, since the source wraps the whole
excerpt-or-default expression in `unescapeHTML`. -/
theorem c5_description_priority_amended (opts : SocialImageOptions)
    (u : String → String) (d : QuartzPluginData) :
    effectiveDescription opts u d = effectiveDescriptionAmended opts u d := by
  unfold effectiveDescription effectiveDescriptionAmended
  cases d.frontmatter.bind (fun f => f.socialDescription) with
  | some s => rfl
  | none =>
    cases d.frontmatter.bind (fun f => f.description) with
    | some s => rfl
    | none => cases hd : d.description <;> simp [hd]

/-- C6. For every page whose frontmatter has no title (including pages with
no frontmatter at all), the effective rendered title is the configured
default title with the site-wide page-title suffix appended. -/
theorem c6_default_title_with_suffix (cfg : GlobalConfiguration)
    (opts : SocialImageOptions) (d : QuartzPluginData) (dt sfx : String)
    (h1 : d.frontmatter.bind (fun f => f.title) = none)
    (h2 : opts.defaultTitle = some dt)
    (h3 : cfg.pageTitleSuffix = some sfx) :
    effectiveTitle cfg opts d = dt ++ sfx := by
  unfold effectiveTitle
  rw [h1, h2, h3]
  rfl

/-- C6, witness: an untitled page under the default options and a configured
suffix renders as `Untitled | Blog`. -/
theorem c6_default_title_with_suffix_witness :
    (barePage.frontmatter.bind (fun f => f.title) = none
      ∧ defaultOptions.defaultTitle = some "Untitled"
      ∧ cfgSuffix.pageTitleSuffix = some " | Blog")
    ∧ effectiveTitle cfgSuffix defaultOptions barePage = "Untitled" ++ " | Blog" :=
  ⟨⟨rfl, rfl, rfl⟩,
   c6_default_title_with_suffix cfgSuffix defaultOptions barePage "Untitled" " | Blog" rfl rfl rfl⟩

/-- C7. The injector emits the `og:image:width` and `og:image:height` tags
exactly when no user-supplied image reference exists for the page, where a
present-but-empty reference counts as non-existent: the guard `!userDefinedOgImagePath`
is a truthiness test. -/
theorem c7_width_height_iff_no_user_image (b : String) (d : QuartzPluginData) :
    (pageHead b d).widthHeight = true ↔
      (userImageOf d = none ∨ userImageOf d = some "") := by
  unfold pageHead resolveUserImage
  cases hu : userImageOf d with
  | none => simp [jsTruthyStr]
  | some s =>
    by_cases hs : s = ""
    · subst hs; simp [jsTruthyStr]
    · by_cases ha : isAbsoluteURL s <;>
        simp [jsTruthyStr, hs, ha, prefixed_static_ne_empty b s]

/-- C8. For every emitted page, the generated image's output path is the
output root joined with the slug plus the fixed suffix `-og-image` and
extension `.webp`, and it is a function of the slug alone: any two pages
with the same slug are written to the same path, so repeated builds
overwrite rather than accumulate files. -/
theorem c8_deterministic_output_path (output s : String) (d e : QuartzPluginData)
    (h1 : d.slug = some s) :
    ogWritePath output d = output ++ "/" ++ (s ++ "-og-image" ++ ".webp")
    ∧ (e.slug = some s → ogWritePath output e = ogWritePath output d) := by
  constructor
  · unfold ogWritePath joinSegments
    rw [h1]
    rfl
  · intro h2
    unfold ogWritePath
    rw [h1, h2]

/-- C8, witness: two different pages sharing the slug `a/b` are both written
to `public/a/b-og-image.webp`. -/
theorem c8_deterministic_output_path_witness :
    (pageA.slug = some "a/b" ∧ pageB.slug = some "a/b")
    ∧ ogWritePath "public" pageA = "public" ++ "/" ++ ("a/b" ++ "-og-image" ++ ".webp")
    ∧ ogWritePath "public" pageB = ogWritePath "public" pageA :=
  ⟨⟨rfl, rfl⟩,
   (c8_deterministic_output_path "public" "a/b" pageA pageB rfl).1,
   (c8_deterministic_output_path "public" "a/b" pageA pageB rfl).2 rfl⟩

/-- C9. The emission skip test is definedness, not truthiness: a page whose
frontmatter sets `socialImage` to the empty string is skipped by both
emitters (nothing is written for it), while the injector's absolutization
guard treats that same empty string as falsy — it leaves the reference
unprefixed (`resolveUserImage` returns it unchanged, and the truthiness
test on it is `false`). -/
theorem c9_empty_social_image_skip (output b : String) (d : QuartzPluginData)
    (fm : Frontmatter) (t : ChangeType)
    (h1 : d.frontmatter = some fm) (h2 : fm.socialImage = some "") :
    hasCustomSocialImage d = true
    ∧ emitPaths output [d] = []
    ∧ partialEmitPaths output [⟨t, some d⟩] = []
    ∧ resolveUserImage b (userImageOf d) = some ""
    ∧ jsTruthyStr (userImageOf d) = false := by
  have hu : userImageOf d = some "" := by
    unfold userImageOf
    rw [h1]
    exact h2
  have hc : hasCustomSocialImage d = true := by
    unfold hasCustomSocialImage
    rw [h1]
    simp [h2]
  refine ⟨hc, ?_, ?_, ?_, ?_⟩
  · simp [emitPaths, hc]
  · simp [partialEmitPaths, hc]
  · simp [resolveUserImage, hu, jsTruthyStr]
  · simp [hu, jsTruthyStr]

/-- C9, witness: the page with `socialImage: ""` is skipped by both emitters
yet left unprefixed by the injector's guard. -/
theorem c9_empty_social_image_skip_witness :
    (pageEmptyImage.frontmatter = some fmEmptyImage ∧ fmEmptyImage.socialImage = some "")
    ∧ (hasCustomSocialImage pageEmptyImage = true
      ∧ emitPaths "public" [pageEmptyImage] = []
      ∧ partialEmitPaths "public" [⟨ChangeType.change, some pageEmptyImage⟩] = []
      ∧ resolveUserImage "example.com" (userImageOf pageEmptyImage) = some ""
      ∧ jsTruthyStr (userImageOf pageEmptyImage) = false) :=
  ⟨⟨rfl, rfl⟩,
   c9_empty_social_image_skip "public" "example.com" pageEmptyImage fmEmptyImage
     ChangeType.change rfl rfl⟩

/-- C10. A user-supplied image reference counts as already absolute exactly
when it begins with `http://` or `https://`; every other truthy form —
protocol-relative `//host/...` URLs and other schemes included — is
rewritten by the injector to `https://<baseUrl>/static/<reference>`. -/
theorem c10_absolute_url_rewrite (url b s : String) (d : QuartzPluginData) :
    (isAbsoluteURL url = true ↔
      ((∃ t, url = "http://" ++ t) ∨ (∃ t, url = "https://" ++ t)))
    ∧ (userImageOf d = some s → s ≠ "" → isAbsoluteURL s = false →
        (pageHead b d).ogImage = "https://" ++ b ++ "/static/" ++ s) := by
  constructor
  · rw [isAbsoluteURL, Bool.or_eq_true, startsWithChars_string_iff, startsWithChars_string_iff]
  · intro hu hs ha
    unfold pageHead resolveUserImage
    rw [hu]
    simp [jsTruthyStr, hs, ha]

/-- C10, witness: the protocol-relative reference `//cdn.example.com/pic.png`
is not treated as absolute and is rewritten onto the static path. -/
theorem c10_absolute_url_rewrite_witness :
    (userImageOf pageProtoRel = some "//cdn.example.com/pic.png"
      ∧ isAbsoluteURL "//cdn.example.com/pic.png" = false)
    ∧ (pageHead "example.com" pageProtoRel).ogImage =
      "https://" ++ "example.com" ++ "/static/" ++ "//cdn.example.com/pic.png" :=
  ⟨⟨rfl, by decide⟩,
   (c10_absolute_url_rewrite "ftp://x" "example.com" "//cdn.example.com/pic.png" pageProtoRel).2
     rfl (by decide) (by decide)⟩

end OgImage
